import Mathlib

/-!
Shallow embedding of the js-midi-synth core (src/midiSynth.js): the MIDI
status-byte classification, the numeric parameter mappers, the voice
registry keyed by note number (the JS object `pressedKeys`), the device
registry keyed by device name (the JS object `midiPorts`), and the
session state holding the master gain/filter chain created by
`createAudio`.

Audio-engine resources (oscillators) are modelled by fresh natural-number
handles; the commands issued to the engine (`osc.start()`, `osc.stop()`)
are recorded in logs so that claims about "exactly one stop command" are
expressible.  The real-valued mappers (`midiNoteToFreq`,
`midiVelocityToGain`) are modelled over ℝ; everything in the mutable
state is kept decidable (ℚ, Nat, String) so scenarios evaluate.
-/

/-- Status-byte test for NoteOn, midiSynth.js lines 115-117:
`statusByte >= 144 && statusByte <= 159`. -/
def isNoteOn (statusByte : Nat) : Bool :=
  144 ≤ statusByte && statusByte ≤ 159

/-- Status-byte test for NoteOff, midiSynth.js lines 119-121:
`statusByte >= 128 && statusByte <= 143`. -/
def isNoteOff (statusByte : Nat) : Bool :=
  128 ≤ statusByte && statusByte ≤ 143

/-- Note-number to frequency mapper, midiSynth.js lines 124-126:
`Math.pow(2, (note - 69) / 12) * 440`. -/
noncomputable def midiNoteToFreq (note : Nat) : ℝ :=
  (2 : ℝ) ^ (((note : ℝ) - 69) / 12) * 440

/-- Velocity to gain mapper, midiSynth.js lines 128-130:
`Math.log(Math.pow(10, velocity)) / 292.4283068102438`. -/
noncomputable def midiVelocityToGain (velocity : Nat) : ℝ :=
  Real.log ((10 : ℝ) ^ velocity) / 292.4283068102438

/-- A sound-generating voice: the oscillator handle stored in
`pressedKeys[note]` by `playNote` (midiSynth.js line 173), together with
the note and velocity it was created from (which determine the frequency
passed to `createOscillator` and the value passed to `createGain`). -/
structure Voice where
  oscId : Nat
  note : Nat
  velocity : Nat
deriving DecidableEq, Repr

/-- The frequency the voice's oscillator was created at
(midiSynth.js lines 166-167). -/
noncomputable def Voice.freq (v : Voice) : ℝ := midiNoteToFreq v.note

/-- The value of the per-voice gain stage the voice's oscillator is routed
through (midiSynth.js lines 169-170). -/
noncomputable def Voice.gainVal (v : Voice) : ℝ := midiVelocityToGain v.velocity

/-- The master channel created by `createAudio` / `createFilter`
(midiSynth.js lines 135-161): master gain node, master biquad filter, and
the two graph connections `masterGainNode.connect(masterFilter)` and
`masterFilter.connect(audioContext.destination)`. -/
structure MasterChannel where
  gain : ℚ
  filterType : String
  filterFreq : ℚ
  filterQ : ℚ
  gainToFilter : Bool
  filterToDestination : Bool
deriving DecidableEq, Repr

/-- The whole mutable state of the synth (midiSynth.js lines 5-10).
`master = none` models the Idle state (`audioContext`, `masterGainNode`,
`masterFilter` all null, before `createAudio` runs); `master = some _`
models Running.  `pressedKeys` is the voice registry as an association
list in JS-object insertion order; `midiPorts` the device registry keys;
`midiListeners` the multiset of devices whose `midimessage` events are
subscribed; `nextOscId` generates fresh oscillator handles;
`startedOscs` / `stoppedOscs` log the start/stop commands issued to the
audio engine, in order. -/
structure SynthState where
  master : Option MasterChannel
  pressedKeys : List (Nat × Voice)
  midiPorts : List String
  midiListeners : List String
  nextOscId : Nat
  startedOscs : List Nat
  stoppedOscs : List Nat
deriving DecidableEq, Repr

/-- The state at script load: all globals null/empty. -/
def initialState : SynthState :=
  { master := none
    pressedKeys := []
    midiPorts := []
    midiListeners := []
    nextOscId := 0
    startedOscs := []
    stoppedOscs := [] }

/-- JS-object membership test `pressedKeys[note]` being truthy. -/
def keyHas (m : List (Nat × Voice)) (k : Nat) : Bool :=
  m.any fun p => p.1 == k

/-- JS-object assignment `pressedKeys[note] = osc`: overwrites in place if
the key is present, otherwise appends (JS insertion order). -/
def setKey (m : List (Nat × Voice)) (k : Nat) (v : Voice) : List (Nat × Voice) :=
  if keyHas m k then m.map fun p => if p.1 == k then (k, v) else p
  else m ++ [(k, v)]

/-- JS-object lookup `pressedKeys[note]`. -/
def getKey (m : List (Nat × Voice)) (k : Nat) : Option Voice :=
  (m.find? fun p => p.1 == k).map Prod.snd

/-- JS-object deletion `delete pressedKeys[note]`. -/
def delKey (m : List (Nat × Voice)) (k : Nat) : List (Nat × Voice) :=
  m.filter fun p => p.1 != k

/-- Number of registry entries for note `k`. -/
def countKey (m : List (Nat × Voice)) (k : Nat) : Nat :=
  (m.map Prod.fst).count k

/-- midiSynth.js lines 163-175.  `playNote(note, velocity)`: returns
unchanged when `audioContext` is null; otherwise creates an oscillator at
`midiNoteToFreq(note)` and a gain stage at `midiVelocityToGain(velocity)`
(the fresh handle records both inputs), registers the oscillator under
`note` in `pressedKeys`, and issues its start command. -/
def playNote (s : SynthState) (note velocity : Nat) : SynthState :=
  if s.master.isNone then s
  else
    let osc : Voice := { oscId := s.nextOscId, note := note, velocity := velocity }
    { s with
      nextOscId := s.nextOscId + 1
      pressedKeys := setKey s.pressedKeys note osc
      startedOscs := s.startedOscs ++ [osc.oscId] }

/-- midiSynth.js lines 177-184.  `stopNote(note)`: if no oscillator is
registered for `note` this is a no-op; otherwise issues the stop command
for that oscillator and deletes the registry entry. -/
def stopNote (s : SynthState) (note : Nat) : SynthState :=
  match getKey s.pressedKeys note with
  | none => s
  | some osc =>
    { s with
      stoppedOscs := s.stoppedOscs ++ [osc.oscId]
      pressedKeys := delKey s.pressedKeys note }

/-- midiSynth.js lines 200-204.  `setMasterGain(value)`: sets the master
gain when `masterGainNode` exists, otherwise no-op. -/
def setMasterGain (s : SynthState) (value : ℚ) : SynthState :=
  match s.master with
  | none => s
  | some m => { s with master := some { m with gain := value } }

/-- midiSynth.js lines 206-210.  `setMasterFilterFreq(data)`: sets the
master filter cutoff to `(data / 64) * 1000` when `masterFilter` exists,
otherwise no-op. -/
def setMasterFilterFreq (s : SynthState) (data : ℚ) : SynthState :=
  match s.master with
  | none => s
  | some m => { s with master := some { m with filterFreq := data / 64 * 1000 } }

/-- midiSynth.js lines 135-161.  `createAudio` (success path: an
AudioContext constructor exists): creates the audio context, a master
gain node with `gain.value = 0.5`, the master filter from `createFilter`
(`type = 'lowpass'`, `frequency = 1000`, `Q = 8`), and connects
master gain → filter → destination. -/
def createAudio (s : SynthState) : SynthState :=
  { s with
    master := some
      { gain := 0.5
        filterType := "lowpass"
        filterFreq := 1000
        filterQ := 8
        gainToFilter := true
        filterToDestination := true } }

/-- midiSynth.js lines 46-54.  `enableMidiInput(input)`: no-op when
`midiPorts[input.name]` is already set; otherwise subscribes the
`midimessage` listener and records the port. -/
def enableMidiInput (s : SynthState) (name : String) : SynthState :=
  if s.midiPorts.contains name then s
  else
    { s with
      midiPorts := s.midiPorts ++ [name]
      midiListeners := s.midiListeners ++ [name] }

/-- midiSynth.js lines 56-64.  `disableMidiInput(input)`: no-op when
`midiPorts[input.name]` is not set; otherwise removes the `midimessage`
listener and deletes the port record. -/
def disableMidiInput (s : SynthState) (name : String) : SynthState :=
  if s.midiPorts.contains name then
    { s with
      midiPorts := s.midiPorts.filter fun n => n ≠ name
      midiListeners := s.midiListeners.erase name }
  else s

/-- midiSynth.js lines 82-113.  `onMidiMessage` on a 3-byte message
`(statusByte, data1, data2)`: four independent `if`s — NoteOn range plays
a note, NoteOff range stops one, status 176 switches on the controller
number (1 = modulation, a no-op; 7 = volume, sets master gain to
`data2 / 127`; others fall through), status 224 sets the master filter
cutoff from `data2`. -/
def onMidiMessage (s : SynthState) (statusByte data1 data2 : Nat) : SynthState :=
  let s1 := if isNoteOn statusByte then playNote s data1 data2 else s
  let s2 := if isNoteOff statusByte then stopNote s1 data1 else s1
  let s3 :=
    if statusByte == 176 then
      if data1 == 1 then s2
      else if data1 == 7 then setMasterGain s2 ((data2 : ℚ) / 127)
      else s2
    else s2
  if statusByte == 224 then setMasterFilterFreq s3 ((data2 : ℚ)) else s3

/-- The typed MIDI event of spec section 4.1. -/
inductive MidiEvent where
  | noteOn (note velocity : Nat)
  | noteOff (note : Nat)
  | controlChange (controller value : Nat)
  | pitchBend (value : Nat)
  | other
deriving DecidableEq, Repr

/-- The MIDI decoder: the status-byte classification performed inline by
`onMidiMessage` (midiSynth.js lines 86-112), reified as a total function
to one typed event per 3-byte message. -/
def decodeMidi (statusByte data1 data2 : Nat) : MidiEvent :=
  if isNoteOn statusByte then .noteOn data1 data2
  else if isNoteOff statusByte then .noteOff data1
  else if statusByte == 176 then .controlChange data1 data2
  else if statusByte == 224 then .pitchBend data2
  else .other

/-- The session controller's action per decoded event, following the
spec's section 4.5 wording: NoteOn plays, NoteOff stops, controller 7
sets master gain to `value / 127`, other controllers (including 1) have
no effect, PitchBend sets the filter cutoff, Other is ignored. -/
def handleEvent (s : SynthState) : MidiEvent → SynthState
  | .noteOn note velocity => playNote s note velocity
  | .noteOff note => stopNote s note
  | .controlChange controller value =>
      if controller == 7 then setMasterGain s ((value : ℚ) / 127) else s
  | .pitchBend value => setMasterFilterFreq s ((value : ℚ))
  | .other => s

/-! Helper lemmas about the status-byte classification and dispatch. -/

lemma isNoteOn_iff (st : Nat) : isNoteOn st = true ↔ 144 ≤ st ∧ st ≤ 159 := by
  simp [isNoteOn]

lemma isNoteOff_iff (st : Nat) : isNoteOff st = true ↔ 128 ≤ st ∧ st ≤ 143 := by
  simp [isNoteOff]

lemma onMidiMessage_noteOn (s : SynthState) (st d1 d2 : Nat)
    (h : isNoteOn st = true) :
    onMidiMessage s st d1 d2 = playNote s d1 d2 := by
  obtain ⟨h1, h2⟩ := (isNoteOn_iff st).mp h
  have hoff : isNoteOff st = false := by simp [isNoteOff]; omega
  have h176 : (st == 176) = false := by simp; omega
  have h224 : (st == 224) = false := by simp; omega
  simp [onMidiMessage, h, hoff, h176, h224]

lemma onMidiMessage_noteOff (s : SynthState) (st d1 d2 : Nat)
    (h : isNoteOff st = true) :
    onMidiMessage s st d1 d2 = stopNote s d1 := by
  obtain ⟨h1, h2⟩ := (isNoteOff_iff st).mp h
  have hon : isNoteOn st = false := by simp [isNoteOn]; omega
  have h176 : (st == 176) = false := by simp; omega
  have h224 : (st == 224) = false := by simp; omega
  simp [onMidiMessage, h, hon, h176, h224]

/-! Helper lemmas about the JS-object model of the voice registry. -/

lemma keyHas_iff_mem (m : List (Nat × Voice)) (k : Nat) :
    keyHas m k = true ↔ k ∈ m.map Prod.fst := by
  simp [keyHas, List.any_eq_true, List.mem_map]

lemma getKey_cons (p : Nat × Voice) (t : List (Nat × Voice)) (k : Nat) :
    getKey (p :: t) k = if p.1 == k then some p.2 else getKey t k := by
  by_cases hp : (p.1 == k) = true <;> simp [getKey, List.find?_cons, hp]

lemma getKey_eq_none_of_not_keyHas (m : List (Nat × Voice)) (k : Nat)
    (h : keyHas m k = false) : getKey m k = none := by
  have h' : ∀ p ∈ m, ¬((p.1 == k) = true) := by
    simpa [keyHas, List.any_eq_false] using h
  simp [getKey, List.find?_eq_none.mpr h']

lemma getKey_isSome_of_keyHas (m : List (Nat × Voice)) (k : Nat)
    (h : keyHas m k = true) : (getKey m k).isSome = true := by
  obtain ⟨x, hx⟩ : ∃ x, (k, x) ∈ m := by simpa [keyHas] using h
  cases hg : getKey m k with
  | some w => rfl
  | none =>
    have hf : (m.find? fun q => q.1 == k) = none := by
      unfold getKey at hg
      exact Option.map_eq_none'.mp hg
    have := List.find?_eq_none.mp hf (k, x) hx
    simp at this

lemma getKey_overwrite (m : List (Nat × Voice)) (k : Nat) (v : Voice) :
    getKey (m.map fun p => if p.1 == k then (k, v) else p) k =
      (getKey m k).map fun _ => v := by
  induction m with
  | nil => rfl
  | cons p t ih =>
    by_cases hp : (p.1 == k) = true
    · simp only [List.map_cons, hp, if_true, getKey_cons]
      simp [hp]
    · have hp' : (p.1 == k) = false := by simpa using hp
      simp only [List.map_cons, hp', Bool.false_eq_true, if_false, getKey_cons]
      exact ih

lemma getKey_append_single (m : List (Nat × Voice)) (k : Nat) (v : Voice)
    (h : keyHas m k = false) : getKey (m ++ [(k, v)]) k = some v := by
  induction m with
  | nil => simp [getKey]
  | cons p t ih =>
    simp only [keyHas, List.any_cons, Bool.or_eq_false_iff] at h
    have ht := ih (by simpa [keyHas] using h.2)
    simp only [List.cons_append, getKey, List.find?_cons, h.1] at ht ⊢
    exact ht

lemma getKey_setKey_self (m : List (Nat × Voice)) (k : Nat) (v : Voice) :
    getKey (setKey m k v) k = some v := by
  unfold setKey
  by_cases h : keyHas m k = true
  · rw [if_pos h, getKey_overwrite]
    have hs := getKey_isSome_of_keyHas m k h
    cases hg : getKey m k with
    | none => rw [hg] at hs; simp at hs
    | some w => simp
  · rw [if_neg (by simpa using h)]
    exact getKey_append_single m k v (by simpa using h)

lemma getKey_delKey_self (m : List (Nat × Voice)) (k : Nat) :
    getKey (delKey m k) k = none := by
  have h' : ∀ p ∈ delKey m k, ¬((p.1 == k) = true) := by
    intro p hp
    have := List.of_mem_filter hp
    simpa using this
  simp [getKey, List.find?_eq_none.mpr h']

lemma getKey_delKey_of_ne (m : List (Nat × Voice)) (k j : Nat) (h : j ≠ k) :
    getKey (delKey m k) j = getKey m j := by
  induction m with
  | nil => rfl
  | cons p t ih =>
    by_cases hp : p.1 = k
    · have hd : delKey (p :: t) k = delKey t k := by
        simp [delKey, List.filter_cons, hp]
      have hpj : (p.1 == j) = false := by
        subst hp; simp; omega
      rw [hd, getKey_cons]
      simp only [hpj, Bool.false_eq_true, if_false]
      exact ih
    · have hd : delKey (p :: t) k = p :: delKey t k := by
        simp [delKey, List.filter_cons, hp]
      rw [hd, getKey_cons, getKey_cons]
      by_cases hpj : (p.1 == j) = true
      · simp [hpj]
      · have hpj' : (p.1 == j) = false := by simpa using hpj
        simp only [hpj', Bool.false_eq_true, if_false]
        exact ih

lemma keys_overwrite (m : List (Nat × Voice)) (k : Nat) (v : Voice) :
    ((m.map fun p => if p.1 == k then (k, v) else p).map Prod.fst)
      = m.map Prod.fst := by
  induction m with
  | nil => rfl
  | cons p t ih =>
    by_cases hp : (p.1 == k) = true
    · have hk : p.1 = k := by simpa using hp
      simp only [List.map_cons, hp, if_true, ih]
      simp [hk]
    · have hp' : (p.1 == k) = false := by simpa using hp
      simp only [List.map_cons, hp', Bool.false_eq_true, if_false, ih]

lemma keys_setKey (m : List (Nat × Voice)) (k : Nat) (v : Voice) :
    (setKey m k v).map Prod.fst =
      if keyHas m k then m.map Prod.fst else m.map Prod.fst ++ [k] := by
  unfold setKey
  by_cases h : keyHas m k = true
  · simp only [h, if_true, keys_overwrite]
  · have h' : keyHas m k = false := by simpa using h
    simp [h']

lemma nodup_keys_setKey (m : List (Nat × Voice)) (k : Nat) (v : Voice)
    (h : (m.map Prod.fst).Nodup) : ((setKey m k v).map Prod.fst).Nodup := by
  rw [keys_setKey]
  by_cases hk : keyHas m k = true
  · simpa [hk] using h
  · rw [if_neg (by simpa using hk)]
    refine List.Nodup.append h (List.nodup_singleton k) ?_
    intro a ha hb
    simp at hb
    subst hb
    exact absurd ((keyHas_iff_mem m a).mpr ha) (by simpa using hk)

lemma nodup_keys_delKey (m : List (Nat × Voice)) (k : Nat)
    (h : (m.map Prod.fst).Nodup) : ((delKey m k).map Prod.fst).Nodup := by
  exact List.Nodup.sublist (List.Sublist.map Prod.fst (List.filter_sublist m)) h

lemma countKey_eq_one_of_keyHas (m : List (Nat × Voice)) (k : Nat)
    (hnd : (m.map Prod.fst).Nodup) (hk : keyHas m k = true) :
    countKey m k = 1 := by
  exact List.count_eq_one_of_mem hnd ((keyHas_iff_mem m k).mp hk)

lemma pressedKeys_setMasterGain (s : SynthState) (v : ℚ) :
    (setMasterGain s v).pressedKeys = s.pressedKeys := by
  unfold setMasterGain
  cases s.master <;> rfl

lemma pressedKeys_setMasterFilterFreq (s : SynthState) (v : ℚ) :
    (setMasterFilterFreq s v).pressedKeys = s.pressedKeys := by
  unfold setMasterFilterFreq
  cases s.master <;> rfl

lemma pressedKeys_onMidiMessage_cases (s : SynthState) (st d1 d2 : Nat) :
    (onMidiMessage s st d1 d2).pressedKeys = s.pressedKeys ∨
    (onMidiMessage s st d1 d2).pressedKeys =
      setKey s.pressedKeys d1 { oscId := s.nextOscId, note := d1, velocity := d2 } ∨
    (onMidiMessage s st d1 d2).pressedKeys = delKey s.pressedKeys d1 := by
  by_cases hOn : isNoteOn st = true
  · rw [onMidiMessage_noteOn s st d1 d2 hOn]
    unfold playNote
    by_cases hm : s.master.isNone = true
    · simp [hm]
    · right; left
      simp [hm]
  · by_cases hOff : isNoteOff st = true
    · rw [onMidiMessage_noteOff s st d1 d2 hOff]
      unfold stopNote
      cases hg : getKey s.pressedKeys d1
      · simp
      · right; right; simp
    · left
      have hOn' : isNoteOn st = false := by simpa using hOn
      have hOff' : isNoteOff st = false := by simpa using hOff
      simp only [onMidiMessage, hOn', hOff', Bool.false_eq_true, if_false]
      by_cases h176 : (st == 176) = true
      · have h224 : (st == 224) = false := by
          simp at h176 ⊢; omega
        simp only [h176, if_true, h224, Bool.false_eq_true, if_false]
        by_cases hd1 : (d1 == 1) = true
        · simp [hd1]
        · have hd1' : (d1 == 1) = false := by simpa using hd1
          by_cases hd7 : (d1 == 7) = true
          · simp [hd1', hd7, pressedKeys_setMasterGain]
          · have hd7' : (d1 == 7) = false := by simpa using hd7
            simp [hd1', hd7']
      · have h176' : (st == 176) = false := by simpa using h176
        simp only [h176', Bool.false_eq_true, if_false]
        by_cases h224 : (st == 224) = true
        · simp [h224, pressedKeys_setMasterFilterFreq]
        · have h224' : (st == 224) = false := by simpa using h224
          simp [h224']

lemma countKey_setKey_of_keyHas (m : List (Nat × Voice)) (k : Nat) (v : Voice)
    (h : keyHas m k = true) : countKey (setKey m k v) k = countKey m k := by
  unfold countKey
  rw [keys_setKey]
  simp [h]

/-- C1: for every handled message the voice registry keeps at most one
entry per note (its key list stays duplicate-free); in particular a second
NoteOn for an already-sounding note `n` while Running leaves exactly one
registry entry for `n`, holding the new oscillator handle in place of the
old, while no stop command is issued for the prior generator. -/
theorem voiceRegistry_single_entry_overwrite
    (s : SynthState) (st d1 d2 : Nat)
    (hnd : (s.pressedKeys.map Prod.fst).Nodup) :
    ((onMidiMessage s st d1 d2).pressedKeys.map Prod.fst).Nodup ∧
    (∀ n v, s.master.isSome = true → keyHas s.pressedKeys n = true →
      countKey (playNote s n v).pressedKeys n = 1 ∧
      getKey (playNote s n v).pressedKeys n =
        some { oscId := s.nextOscId, note := n, velocity := v } ∧
      (playNote s n v).stoppedOscs = s.stoppedOscs) := by
  constructor
  · rcases pressedKeys_onMidiMessage_cases s st d1 d2 with h | h | h
    · rw [h]; exact hnd
    · rw [h]; exact nodup_keys_setKey _ _ _ hnd
    · rw [h]; exact nodup_keys_delKey _ _ hnd
  · intro n v hrun hhas
    have hm : s.master.isNone = false := by
      cases hs : s.master with
      | none => rw [hs] at hrun; simp at hrun
      | some m => rfl
    have hplay : playNote s n v =
        { s with
          nextOscId := s.nextOscId + 1
          pressedKeys := setKey s.pressedKeys n
            { oscId := s.nextOscId, note := n, velocity := v }
          startedOscs := s.startedOscs ++ [s.nextOscId] } := by
      unfold playNote
      simp [hm]
    rw [hplay]
    refine ⟨?_, getKey_setKey_self _ _ _, rfl⟩
    rw [countKey_setKey_of_keyHas _ _ _ hhas]
    exact countKey_eq_one_of_keyHas _ _ hnd hhas

theorem voiceRegistry_single_entry_overwrite_witness :
    ((onMidiMessage (playNote (createAudio initialState) 60 90) 144 60 91).pressedKeys.map
        Prod.fst).Nodup ∧
    countKey (playNote (playNote (createAudio initialState) 60 90) 60 91).pressedKeys 60 = 1 ∧
    (playNote (playNote (createAudio initialState) 60 90) 60 91).stoppedOscs = [] := by
  have h := voiceRegistry_single_entry_overwrite
    (playNote (createAudio initialState) 60 90) 144 60 91 (by decide)
  have h2 := h.2 60 91 (by decide) (by decide)
  exact ⟨h.1, h2.1, h2.2.2⟩

/-- C2: from Running with an empty registry, handling a NoteOn for note 60
at velocity 90 and then a NoteOff for note 60 creates a voice for note 60
(one start command for its oscillator) and then removes it, leaving the
registry empty with exactly one stop command, for that same oscillator,
issued to the audio engine. -/
theorem noteOn_noteOff_roundtrip (stOn stOff vOff : Nat)
    (hOn : isNoteOn stOn = true) (hOff : isNoteOff stOff = true) :
    getKey (onMidiMessage (createAudio initialState) stOn 60 90).pressedKeys 60 =
      some { oscId := 0, note := 60, velocity := 90 } ∧
    (onMidiMessage (onMidiMessage (createAudio initialState) stOn 60 90)
        stOff 60 vOff).pressedKeys = [] ∧
    (onMidiMessage (onMidiMessage (createAudio initialState) stOn 60 90)
        stOff 60 vOff).stoppedOscs = [0] ∧
    (onMidiMessage (createAudio initialState) stOn 60 90).startedOscs = [0] := by
  rw [onMidiMessage_noteOn _ _ _ _ hOn, onMidiMessage_noteOff _ _ _ _ hOff]
  refine ⟨by decide, by decide, by decide, by decide⟩

theorem noteOn_noteOff_roundtrip_witness :
    isNoteOn 144 = true ∧ isNoteOff 128 = true ∧
    (onMidiMessage (onMidiMessage (createAudio initialState) 144 60 90)
        128 60 64).pressedKeys = [] ∧
    (onMidiMessage (onMidiMessage (createAudio initialState) 144 60 90)
        128 60 64).stoppedOscs = [0] := by
  have h := noteOn_noteOff_roundtrip 144 128 64 (by decide) (by decide)
  exact ⟨by decide, by decide, h.2.1, h.2.2.1⟩

/-- C3: while the session is Idle (no audio engine, so also no voices),
handling any 3-byte MIDI message — NoteOn for note 69 at velocity 100
included — leaves the whole state unchanged: no voice is created, the
registry stays empty and the master channel stays absent. -/
theorem idle_ignores_all_events (s : SynthState) (st d1 d2 : Nat)
    (hIdle : s.master = none) (hEmpty : s.pressedKeys = []) :
    onMidiMessage s st d1 d2 = s := by
  have hp : ∀ a b, playNote s a b = s := by
    intro a b
    simp [playNote, hIdle]
  have hs : ∀ a, stopNote s a = s := by
    intro a
    simp [stopNote, hEmpty, getKey]
  have hg : ∀ v, setMasterGain s v = s := by
    intro v
    simp [setMasterGain, hIdle]
  have hf : ∀ v, setMasterFilterFreq s v = s := by
    intro v
    simp [setMasterFilterFreq, hIdle]
  simp [onMidiMessage, hp, hs, hg, hf]

theorem idle_ignores_all_events_witness :
    onMidiMessage initialState 144 69 100 = initialState :=
  idle_ignores_all_events initialState 144 69 100 rfl rfl

/-- C4: the decoder is total — every 3-byte message yields exactly one
typed event, classified solely by status-byte ranges, with the data bytes
(including out-of-spec values above 127) passed through unmodified — and
the message handler's behaviour factors through this classification. -/
theorem decodeMidi_classification (st d1 d2 : Nat) :
    (144 ≤ st ∧ st ≤ 159 → decodeMidi st d1 d2 = .noteOn d1 d2) ∧
    (128 ≤ st ∧ st ≤ 143 → decodeMidi st d1 d2 = .noteOff d1) ∧
    (st = 176 → decodeMidi st d1 d2 = .controlChange d1 d2) ∧
    (st = 224 → decodeMidi st d1 d2 = .pitchBend d2) ∧
    (¬(128 ≤ st ∧ st ≤ 159) ∧ st ≠ 176 ∧ st ≠ 224 →
      decodeMidi st d1 d2 = .other) ∧
    (∀ s, onMidiMessage s st d1 d2 = handleEvent s (decodeMidi st d1 d2)) := by
  refine ⟨?_, ?_, ?_, ?_, ?_, ?_⟩
  · rintro ⟨h1, h2⟩
    have hOn : isNoteOn st = true := (isNoteOn_iff st).mpr ⟨h1, h2⟩
    simp [decodeMidi, hOn]
  · rintro ⟨h1, h2⟩
    have hOn : isNoteOn st = false := by simp [isNoteOn]; omega
    have hOff : isNoteOff st = true := (isNoteOff_iff st).mpr ⟨h1, h2⟩
    simp [decodeMidi, hOn, hOff]
  · rintro rfl; rfl
  · rintro rfl; rfl
  · rintro ⟨h0, h6, h4⟩
    have hOn : isNoteOn st = false := by simp [isNoteOn]; omega
    have hOff : isNoteOff st = false := by simp [isNoteOff]; omega
    have h176 : (st == 176) = false := by simpa using h6
    have h224 : (st == 224) = false := by simpa using h4
    simp [decodeMidi, hOn, hOff, h176, h224]
  · intro s
    by_cases hOn : isNoteOn st = true
    · rw [onMidiMessage_noteOn s st d1 d2 hOn]
      simp [decodeMidi, hOn, handleEvent]
    · have hOn' : isNoteOn st = false := by simpa using hOn
      by_cases hOff : isNoteOff st = true
      · rw [onMidiMessage_noteOff s st d1 d2 hOff]
        simp [decodeMidi, hOn', hOff, handleEvent]
      · have hOff' : isNoteOff st = false := by simpa using hOff
        simp only [onMidiMessage, decodeMidi, hOn', hOff', Bool.false_eq_true,
          if_false]
        by_cases h176 : (st == 176) = true
        · have h224 : (st == 224) = false := by
            simp at h176 ⊢
            omega
          simp only [h176, if_true, h224, Bool.false_eq_true, if_false,
            handleEvent]
          by_cases hd1 : (d1 == 1) = true
          · have hd7 : (d1 == 7) = false := by
              simp at hd1 ⊢
              omega
            simp [hd1, hd7]
          · have hd1' : (d1 == 1) = false := by simpa using hd1
            simp [hd1']
        · have h176' : (st == 176) = false := by simpa using h176
          by_cases h224 : (st == 224) = true
          · simp [h176', h224, handleEvent]
          · have h224' : (st == 224) = false := by simpa using h224
            simp [h176', h224', handleEvent]

theorem decodeMidi_classification_witness :
    decodeMidi 150 60 200 = MidiEvent.noteOn 60 200 ∧
    onMidiMessage initialState 150 60 200 =
      handleEvent initialState (decodeMidi 150 60 200) :=
  ⟨(decodeMidi_classification 150 60 200).1 (by decide),
   (decodeMidi_classification 150 60 200).2.2.2.2.2 initialState⟩

/-- C5: a status byte outside [128,159] that is neither 176 nor 224 (such
as 200) decodes to Other and handling it performs no mutation at all: the
state — voice registry, device registry and master channel — is returned
unchanged. -/
theorem other_status_no_mutation (s : SynthState) (st d1 d2 : Nat)
    (h0 : ¬(128 ≤ st ∧ st ≤ 159)) (h6 : st ≠ 176) (h4 : st ≠ 224) :
    decodeMidi st d1 d2 = .other ∧ onMidiMessage s st d1 d2 = s := by
  have hOn : isNoteOn st = false := by simp [isNoteOn]; omega
  have hOff : isNoteOff st = false := by simp [isNoteOff]; omega
  have h176 : (st == 176) = false := by simpa using h6
  have h224 : (st == 224) = false := by simpa using h4
  constructor
  · simp [decodeMidi, hOn, hOff, h176, h224]
  · simp [onMidiMessage, hOn, hOff, h176, h224]

theorem other_status_no_mutation_witness :
    decodeMidi 200 61 62 = MidiEvent.other ∧
    onMidiMessage (createAudio initialState) 200 61 62 =
      createAudio initialState :=
  other_status_no_mutation (createAudio initialState) 200 61 62
    (by decide) (by decide) (by decide)

/-- C6: stopping an unheld note is a silent no-op — the state (registry
and stop-command log included) is returned unchanged — while stopping a
held note removes exactly its registry entry, leaves every other note's
entry untouched, and issues the stop command for its oscillator handle. -/
theorem stopNote_unheld_noop_held_removes (s : SynthState) (n : Nat) :
    (getKey s.pressedKeys n = none → stopNote s n = s) ∧
    (∀ v, getKey s.pressedKeys n = some v →
      (stopNote s n).pressedKeys = delKey s.pressedKeys n ∧
      getKey (stopNote s n).pressedKeys n = none ∧
      (∀ k, k ≠ n → getKey (stopNote s n).pressedKeys k = getKey s.pressedKeys k) ∧
      (stopNote s n).stoppedOscs = s.stoppedOscs ++ [v.oscId]) := by
  constructor
  · intro h
    unfold stopNote
    rw [h]
  · intro v h
    unfold stopNote
    rw [h]
    refine ⟨rfl, ?_, ?_, rfl⟩
    · exact getKey_delKey_self s.pressedKeys n
    · intro k hk
      exact getKey_delKey_of_ne s.pressedKeys n k hk

theorem stopNote_unheld_noop_held_removes_witness :
    stopNote initialState 60 = initialState ∧
    (stopNote (playNote (createAudio initialState) 60 90) 60).pressedKeys = [] ∧
    (stopNote (playNote (createAudio initialState) 60 90) 60).stoppedOscs = [0] := by
  have h1 := (stopNote_unheld_noop_held_removes initialState 60).1 (by decide)
  have h2 := (stopNote_unheld_noop_held_removes
    (playNote (createAudio initialState) 60 90) 60).2
    { oscId := 0, note := 60, velocity := 90 } (by decide)
  refine ⟨h1, ?_, ?_⟩
  · rw [h2.1]; decide
  · rw [h2.2.2.2]; decide

lemma enableMidiInput_noop (t : SynthState) (d : String)
    (h : t.midiPorts.contains d = true) : enableMidiInput t d = t := by
  unfold enableMidiInput
  rw [if_pos h]

/-- C7: device enabling is idempotent on device identity — enabling the
same name twice yields exactly one registry record and exactly one
message subscription, the second call being a no-op — and disabling a
name that is not registered is a no-op. -/
theorem deviceRegistry_idempotent (s : SynthState) (d : String)
    (hport : s.midiPorts.contains d = false)
    (hsub : s.midiListeners.count d = 0) :
    enableMidiInput (enableMidiInput s d) d = enableMidiInput s d ∧
    (enableMidiInput (enableMidiInput s d) d).midiPorts.count d = 1 ∧
    (enableMidiInput (enableMidiInput s d) d).midiListeners.count d = 1 ∧
    (∀ t, t.midiPorts.contains d = false → disableMidiInput t d = t) := by
  have h1 : enableMidiInput s d =
      { s with
        midiPorts := s.midiPorts ++ [d]
        midiListeners := s.midiListeners ++ [d] } := by
    unfold enableMidiInput
    rw [if_neg (by simpa using hport)]
  have h2 : (enableMidiInput s d).midiPorts.contains d = true := by
    rw [h1]
    simp
  have h3 := enableMidiInput_noop (enableMidiInput s d) d h2
  have hpcnt : s.midiPorts.count d = 0 :=
    List.count_eq_zero_of_not_mem (by simpa using hport)
  refine ⟨h3, ?_, ?_, ?_⟩
  · rw [h3, h1]
    simp [List.count_append, hpcnt]
  · rw [h3, h1]
    simp [List.count_append, hsub]
  · intro t ht
    unfold disableMidiInput
    rw [if_neg (by simpa using ht)]

theorem deviceRegistry_idempotent_witness :
    enableMidiInput (enableMidiInput initialState "KeyLab") "KeyLab" =
      enableMidiInput initialState "KeyLab" ∧
    (enableMidiInput (enableMidiInput initialState "KeyLab")
        "KeyLab").midiListeners.count "KeyLab" = 1 ∧
    disableMidiInput initialState "KeyLab" = initialState := by
  have h := deviceRegistry_idempotent initialState "KeyLab" rfl rfl
  exact ⟨h.1, h.2.2.1, h.2.2.2 initialState rfl⟩

/-- C8: the velocity mapper computes exactly
ln(10^velocity) / 292.4283068102438, and on velocities in [1,127] it is
strictly monotonically increasing. -/
theorem midiVelocityToGain_formula_strictMono (v w : Nat)
    (hv : 1 ≤ v) (hw : w ≤ 127) (hvw : v < w) :
    midiVelocityToGain v = Real.log ((10 : ℝ) ^ v) / 292.4283068102438 ∧
    midiVelocityToGain v < midiVelocityToGain w := by
  refine ⟨rfl, ?_⟩
  unfold midiVelocityToGain
  have hc : (0 : ℝ) < 292.4283068102438 := by norm_num
  have hl : (0 : ℝ) < Real.log 10 := Real.log_pos (by norm_num)
  rw [Real.log_pow, Real.log_pow]
  apply (div_lt_div_iff_of_pos_right hc).mpr
  exact mul_lt_mul_of_pos_right (by exact_mod_cast hvw) hl

theorem midiVelocityToGain_strictMono_witness :
    1 ≤ (1 : Nat) ∧ (2 : Nat) ≤ 127 ∧ (1 : Nat) < 2 ∧
    midiVelocityToGain 1 < midiVelocityToGain 2 :=
  ⟨by decide, by decide, by decide,
   (midiVelocityToGain_formula_strictMono 1 2 (by decide) (by decide)
     (by decide)).2⟩

/-- C9: a NoteOn with velocity 0 while Running is handled as a NoteOn and
not as a NoteOff: a fresh voice for the note is created and registered
(one start command, no stop command), and its per-voice gain is
velocityToGain(0) = 0, a silent voice. -/
theorem noteOn_velocity_zero_silent_voice (s : SynthState) (st n : Nat)
    (hOn : isNoteOn st = true) (hRun : s.master.isSome = true) :
    getKey (onMidiMessage s st n 0).pressedKeys n =
      some { oscId := s.nextOscId, note := n, velocity := 0 } ∧
    (onMidiMessage s st n 0).startedOscs = s.startedOscs ++ [s.nextOscId] ∧
    (onMidiMessage s st n 0).stoppedOscs = s.stoppedOscs ∧
    Voice.gainVal { oscId := s.nextOscId, note := n, velocity := 0 } = 0 ∧
    midiVelocityToGain 0 = 0 := by
  rw [onMidiMessage_noteOn s st n 0 hOn]
  have hm : s.master.isNone = false := by
    cases hs : s.master with
    | none => rw [hs] at hRun; simp at hRun
    | some m => rfl
  have hplay : playNote s n 0 =
      { s with
        nextOscId := s.nextOscId + 1
        pressedKeys := setKey s.pressedKeys n
          { oscId := s.nextOscId, note := n, velocity := 0 }
        startedOscs := s.startedOscs ++ [s.nextOscId] } := by
    unfold playNote
    simp [hm]
  rw [hplay]
  have hzero : midiVelocityToGain 0 = 0 := by
    unfold midiVelocityToGain
    simp
  exact ⟨getKey_setKey_self _ _ _, rfl, rfl, hzero, hzero⟩

theorem noteOn_velocity_zero_silent_voice_witness :
    getKey (onMidiMessage (createAudio initialState) 144 60 0).pressedKeys 60 =
      some { oscId := 0, note := 60, velocity := 0 } ∧
    midiVelocityToGain 0 = 0 := by
  have h := noteOn_velocity_zero_silent_voice (createAudio initialState) 144 60
    (by decide) (by decide)
  exact ⟨h.1, h.2.2.2.2⟩

/-- C10: the Idle→Running transition initializes the master channel with
master gain 0.5 and a low-pass filter at 1000 Hz cutoff with resonance
Q = 8, wired master gain → filter → destination, before any MIDI event is
handled (the voice and device registries are untouched by it). -/
theorem createAudio_initializes_master (s : SynthState)
    (hIdle : s.master = none) :
    (createAudio s).master = some
      { gain := 0.5, filterType := "lowpass", filterFreq := 1000,
        filterQ := 8, gainToFilter := true, filterToDestination := true } ∧
    (createAudio s).pressedKeys = s.pressedKeys ∧
    (createAudio s).midiPorts = s.midiPorts :=
  ⟨rfl, rfl, rfl⟩

theorem createAudio_initializes_master_witness :
    (createAudio initialState).master = some
      { gain := 0.5, filterType := "lowpass", filterFreq := 1000,
        filterQ := 8, gainToFilter := true, filterToDestination := true } :=
  (createAudio_initializes_master initialState rfl).1
